import Mathlib

/-!
Verification of the sample bar chart visual (`src/barChart.ts`).

Shallow embedding of the view-model transform (`visualTransform`), the color
pipeline (`shadeColor`, `getColumnColorByIndex`, `getColumnStrokeColor`,
`getColumnStrokeWidth`, `getAxisTextFillColor`), the gradient registration
performed inside `update`, and the selection synchronization
(`syncSelectionState`, `isSelectionIdInArray`).

Modelling conventions:
* JavaScript `undefined`/`null` object references are modelled with `Option`;
  a JS `TypeError` raised by reading a property of `undefined` makes the
  embedded function return `none` (the functions that can throw are
  `Option`-valued).
* Machine numbers that the code only moves around verbatim (data cell values,
  `maxLocal`) are carried as `Int`; the transform performs no arithmetic on
  them.
* `shadeColor`'s line `parseInt(\x7bR * (100 + percent) / 100\x7d)` is modelled as
  truncation toward zero (`Int.tdiv`) of the exact rational: for channel
  values `0 ≤ R ≤ 255` and the percents used by the program, the IEEE double
  `R * (100 + percent) / 100` prints as a plain decimal numeral whose leading
  integer part is exactly the truncation of the exact value, which is what
  `parseInt` of that string returns.
-/

namespace BarChartSpec

/-! ## Data model -/

/-- A primitive cell value of a data column (`PrimitiveValue`). The transform
never computes with numbers, so an integer carrier is sufficient; JS
`undefined` (an out-of-range array read) is represented externally by
`Option`. -/
inductive PrimitiveValue where
  | str (s : String)
  | num (n : Int)
  | boolVal (b : Bool)
  | nullVal
deriving DecidableEq

/-- JS template-literal coercion of a possibly-undefined cell value, as in
`` `${category.values[i]}` ``: an out-of-range read (`none`) prints as the
literal string `"undefined"`. -/
def jsTemplate : Option PrimitiveValue → String
  | none => "undefined"
  | some (.str s) => s
  | some (.num n) => toString n
  | some (.boolVal b) => if b then "true" else "false"
  | some .nullVal => "null"

/-- `Fill.solid` of the powerbi `Fill` type. -/
structure FillSolid where
  color : String
deriving DecidableEq

/-- The powerbi `Fill` property value: `{ solid: { color } }`. -/
structure Fill where
  solid : FillSolid
deriving DecidableEq

/-- A persisted object-property value: the property pane stores booleans,
numbers and fill colors. -/
inductive DataViewPropertyValue where
  | boolVal (b : Bool)
  | numVal (n : Int)
  | fillVal (f : Fill)
deriving DecidableEq

/-- A persisted property bag (`DataViewObjects`): object name → property
name → value, absent entries are `none`. -/
abbrev DataViewObjects := String → String → Option DataViewPropertyValue

/-- The category column of the categorical data view. `source` only matters
through its presence in the transform's guard, so it is carried as an
optional name; `objects` is the per-row persisted override store read by
`getCategoricalObjectValue`. -/
structure DataViewCategoryColumn where
  source : Option String
  values : List PrimitiveValue
  objects : Nat → Option DataViewObjects

/-- The value column: cell values plus the host-reported `maxLocal`
(possibly absent, i.e. `undefined`). -/
structure DataViewValueColumn where
  values : List PrimitiveValue
  maxLocal : Option Int

/-- `DataView.categorical`: both column arrays may be absent. -/
structure DataViewCategorical where
  categories : Option (List DataViewCategoryColumn)
  values : Option (List DataViewValueColumn)

/-- `DataView.metadata`: only the persisted `objects` bag is read. -/
structure DataViewMetadata where
  objects : Option DataViewObjects

/-- One raw data view. -/
structure DataView where
  categorical : Option DataViewCategorical
  metadata : DataViewMetadata

/-- The slice of `VisualUpdateOptions` read by `visualTransform`: the
`dataViews` array, which may itself be absent. -/
structure VisualUpdateOptions where
  dataViews : Option (List DataView)

/-- The host color palette service
(`ISandboxExtendedColorPalette`). `getColor key .value`, `background.value`
and `foreground.value` are collapsed to the returned color strings. -/
structure ISandboxExtendedColorPalette where
  isHighContrast : Bool
  getColor : String → String
  background : String
  foreground : String

/-- The slice of `IVisualHost` read by `visualTransform`: the color palette.
The selection-id builder
(`createSelectionIdBuilder().withCategory(category, i).createSelectionId()`)
is embedded as the `ISelectionId.mk` constructor on the row index, since
within one transform run the category column is fixed and the id is keyed by
the row. -/
structure IVisualHost where
  colorPalette : ISandboxExtendedColorPalette

/-- An opaque selection identity token, stably identifying the originating
category row. -/
structure ISelectionId where
  categoryRow : Nat
deriving DecidableEq

/-- One resolved data point (`BarChartDataPoint`). `value` is `none` when
the row index lies beyond the value column (JS `undefined`). -/
structure BarChartDataPoint where
  value : Option PrimitiveValue
  category : String
  color : String
  endColor : String
  strokeColor : Option String
  strokeWidth : Nat
  selectionId : ISelectionId
deriving DecidableEq

/-- `BarChartSettings.enableAxis`. -/
structure EnableAxisSettings where
  «show» : Bool
  fill : String
deriving DecidableEq

/-- `BarChartSettings.generalView`. `helpLinkColor` is `Option` because the
transform assigns it the stroke color, which is `null` outside high-contrast
mode. -/
structure GeneralViewSettings where
  opacity : Int
  showHelpLink : Bool
  helpLinkColor : Option String
deriving DecidableEq

/-- The resolved settings record (`BarChartSettings`). -/
structure BarChartSettings where
  enableAxis : EnableAxisSettings
  generalView : GeneralViewSettings
deriving DecidableEq

/-- The view model (`BarChartViewModel`). `dataMax` is `Option` because the
code copies `dataValue.maxLocal` verbatim, which may be `undefined`;
`settings` is `Option` because the insufficient-data path returns the bare
type-cast `<BarChartSettings>{}`, i.e. an object with no properties set,
modelled as `none`. -/
structure BarChartViewModel where
  dataPoints : List BarChartDataPoint
  dataMax : Option Int
  settings : Option BarChartSettings
deriving DecidableEq

/-! ## Color pipeline -/

/-- Hexadecimal digit value as accepted by `parseInt(..., 16)` (both
cases), computed from the code point: 48-57 are `0`-`9`, 97-102 are
`a`-`f`, 65-70 are `A`-`F`. -/
def hexVal (c : Char) : Option Nat :=
  let n := c.toNat
  if 48 ≤ n ∧ n ≤ 57 then some (n - 48)
  else if 97 ≤ n ∧ n ≤ 102 then some (n - 87)
  else if 65 ≤ n ∧ n ≤ 70 then some (n - 55)
  else none

/-- The three `parseInt(color.substring(..), 16)` channel reads of
`shadeColor`, lines 154-156: characters 1-2, 3-4, 5-6 of the string (any
leading character, trailing characters ignored). `none` abstracts the inputs
on which JS would produce `NaN` channels or shorter substrings; see
`shadeColor`. -/
def parseColor (color : String) : Option (Nat × Nat × Nat) :=
  match color.data with
  | _ :: c1 :: c2 :: c3 :: c4 :: c5 :: c6 :: _ =>
    match hexVal c1, hexVal c2, hexVal c3, hexVal c4, hexVal c5, hexVal c6 with
    | some h1, some h2, some h3, some h4, some h5, some h6 =>
      some (16 * h1 + h2, 16 * h3 + h4, 16 * h5 + h6)
    | _, _, _, _, _, _ => none
  | _ => none

/-- A well-formed `#RRGGBB` color: `#` followed by exactly six hexadecimal
digits. -/
def isValidHexColor (s : String) : Bool :=
  match s.data with
  | c :: rest => c == '#' && rest.length == 6 && rest.all fun ch => (hexVal ch).isSome
  | [] => false

/-- JS `Number.prototype.toString(16)` on a natural number: lowercase hex
digits, no padding. -/
def natToHex (n : Nat) : String := ⟨Nat.toDigits 16 n⟩

/-- JS `toString(16)` on an integer channel value (negative values print with
a leading minus sign). -/
def intToHexJS (r : Int) : String :=
  if r < 0 then "-" ++ natToHex r.natAbs else natToHex r.toNat

/-- Lines 166-168: pad a one-digit hex rendering to two digits. -/
def pad2 (s : String) : String := if s.length == 1 then "0" ++ s else s

/-- `shadeColor(color, percent)`, lines 153-170. Parses the three channels,
scales each by `(100 + percent) / 100` with `parseInt`-of-template-string
(= truncation toward zero, see the file header), clamps from above at 255
(the code has no lower clamp), and reassembles `"#" + RR + GG + BB` with
two-digit lowercase hex renderings. On strings whose positions 1-6 are not
hex digits the JS code produces a non-color garbage string through `NaN`
channels; that outcome is uniformly abstracted by the marker result. -/
def shadeColor (color : String) (percent : Int) : String :=
  match parseColor color with
  | none => "#NaNNaNNaN"
  | some (r, g, b) =>
    let r1 : Int := Int.tdiv ((r : Int) * (100 + percent)) 100
    let g1 : Int := Int.tdiv ((g : Int) * (100 + percent)) 100
    let b1 : Int := Int.tdiv ((b : Int) * (100 + percent)) 100
    let r2 : Int := if r1 < 255 then r1 else 255
    let g2 : Int := if g1 < 255 then g1 else 255
    let b2 : Int := if b1 < 255 then b1 else 255
    "#" ++ pad2 (intToHexJS r2) ++ pad2 (intToHexJS g2) ++ pad2 (intToHexJS b2)

/-- Modelled from the spec: `getValue<T>` of the repository's
object-enumeration utility (objectEnumerationUtility.ts, which is not under
`src/`): settings are "resolved per update from persisted object properties
(external store) overlaid on defaults" — the persisted property is returned
when present (with the expected type), else the default. Boolean instance. -/
def getValueBool (objects : Option DataViewObjects) (objectName propertyName : String)
    (defaultValue : Bool) : Bool :=
  match objects with
  | none => defaultValue
  | some objs =>
    match objs objectName propertyName with
    | some (.boolVal b) => b
    | _ => defaultValue

/-- Modelled from the spec: `getValue<T>` (see `getValueBool`), numeric
instance. -/
def getValueNum (objects : Option DataViewObjects) (objectName propertyName : String)
    (defaultValue : Int) : Int :=
  match objects with
  | none => defaultValue
  | some objs =>
    match objs objectName propertyName with
    | some (.numVal n) => n
    | _ => defaultValue

/-- Modelled from the spec: `getValue<T>` (see `getValueBool`), `Fill`
instance. -/
def getValueFill (objects : Option DataViewObjects) (objectName propertyName : String)
    (defaultValue : Fill) : Fill :=
  match objects with
  | none => defaultValue
  | some objs =>
    match objs objectName propertyName with
    | some (.fillVal f) => f
    | _ => defaultValue

/-- Modelled from the spec: `getCategoricalObjectValue<T>` of the
object-enumeration utility (not under `src/`): "per-category persisted
overrides (fill/endFill) take precedence over computed colors when present" —
the per-row persisted property is returned when present, else the default.
`Fill` instance. -/
def getCategoricalObjectValueFill (category : DataViewCategoryColumn) (index : Nat)
    (objectName propertyName : String) (defaultValue : Fill) : Fill :=
  match category.objects index with
  | none => defaultValue
  | some objs =>
    match objs objectName propertyName with
    | some (.fillVal f) => f
    | _ => defaultValue

/-- `getColumnColorByIndex`, lines 172-198. In high-contrast mode the fixed
theme background is returned for fill and end color alike; otherwise the
palette color keyed by the template-coerced category value, darkened by
`shadeColor(_, -40)` for the end color, both subject to the per-category
persisted override. The `console.log` on line 184 is an external side effect
with no bearing on the result. -/
def getColumnColorByIndex (category : DataViewCategoryColumn) (index : Nat)
    (colorPalette : ISandboxExtendedColorPalette) (isEndColor : Bool) : String :=
  if colorPalette.isHighContrast then
    colorPalette.background
  else
    let categoryColor := colorPalette.getColor (jsTemplate (category.values.get? index))
    let categoryEndColor := shadeColor categoryColor (-40)
    let defaultColor : Fill := ⟨⟨if isEndColor then categoryEndColor else categoryColor⟩⟩
    (getCategoricalObjectValueFill category index "colorSelector"
      (if isEndColor then "endFill" else "fill") defaultColor).solid.color

/-- `getColumnStrokeColor`, lines 200-204: theme foreground in high
contrast, otherwise `null`. -/
def getColumnStrokeColor (colorPalette : ISandboxExtendedColorPalette) : Option String :=
  if colorPalette.isHighContrast then some colorPalette.foreground else none

/-- `getColumnStrokeWidth`, lines 206-210. -/
def getColumnStrokeWidth (isHighContrast : Bool) : Nat :=
  if isHighContrast then 2 else 0

/-- `getAxisTextFillColor`, lines 212-231. -/
def getAxisTextFillColor (objects : Option DataViewObjects)
    (colorPalette : ISandboxExtendedColorPalette) (defaultColor : String) : String :=
  if colorPalette.isHighContrast then
    colorPalette.foreground
  else
    (getValueFill objects "enableAxis" "fill" ⟨⟨defaultColor⟩⟩).solid.color

/-! ## The view-model transform -/

/-- The `defaultSettings` local of `visualTransform`, lines 72-82. -/
def defaultSettings : BarChartSettings :=
  { enableAxis := { «show» := false, fill := "#000000" }
    generalView := { opacity := 100, showHelpLink := false, helpLinkColor := some "#80B0E0" } }

/-- The settings construction of `visualTransform`, lines 109-121: persisted
properties overlaid on the defaults, except that `helpLinkColor` is assigned
the column stroke color (`null` outside high-contrast mode). -/
def buildBarChartSettings (objects : Option DataViewObjects)
    (colorPalette : ISandboxExtendedColorPalette) : BarChartSettings :=
  let strokeColor := getColumnStrokeColor colorPalette
  { enableAxis :=
      { «show» := getValueBool objects "enableAxis" "show" defaultSettings.enableAxis.«show»
        fill := getAxisTextFillColor objects colorPalette defaultSettings.enableAxis.fill }
    generalView :=
      { opacity := getValueNum objects "generalView" "opacity" defaultSettings.generalView.opacity
        showHelpLink :=
          getValueBool objects "generalView" "showHelpLink" defaultSettings.generalView.showHelpLink
        helpLinkColor := strokeColor } }

/-- The data-point loop of `visualTransform`, lines 123-142: one point per
index `0 ≤ i < max(category.values.length, dataValue.values.length)`. -/
def buildBarChartDataPoints (category : DataViewCategoryColumn)
    (dataValue : DataViewValueColumn)
    (colorPalette : ISandboxExtendedColorPalette) : List BarChartDataPoint :=
  let strokeColor := getColumnStrokeColor colorPalette
  let strokeWidth := getColumnStrokeWidth colorPalette.isHighContrast
  (List.range (max category.values.length dataValue.values.length)).map fun i =>
    { color := getColumnColorByIndex category i colorPalette false
      endColor := getColumnColorByIndex category i colorPalette true
      strokeColor := strokeColor
      strokeWidth := strokeWidth
      selectionId := ⟨i⟩
      value := dataValue.values.get? i
      category := jsTemplate (category.values.get? i) }

/-- `visualTransform`, lines 70-151. The guard (lines 89-97) returns the
zero view model — empty points, `dataMax = 0` and the bare type-cast
`<BarChartSettings>{}` (`settings := none`) — when the data views, the
categorical, the categories array, the first category's `source`, or the
values array is absent. Reading `categories[0].source` when the categories
array is present but empty, and reading `dataValue.values.length` (line 125)
when the values array is present but empty, raise a JS `TypeError`, modelled
as the `none` result. -/
def visualTransform (options : VisualUpdateOptions) (host : IVisualHost) :
    Option BarChartViewModel :=
  let zeroViewModel : BarChartViewModel := { dataPoints := [], dataMax := some 0, settings := none }
  match options.dataViews with
  | none => some zeroViewModel
  | some [] => some zeroViewModel
  | some (dataView :: _) =>
    match dataView.categorical with
    | none => some zeroViewModel
    | some categorical =>
      match categorical.categories with
      | none => some zeroViewModel
      | some [] => none
      | some (category :: _) =>
        match category.source with
        | none => some zeroViewModel
        | some _ =>
          match categorical.values with
          | none => some zeroViewModel
          | some [] => none
          | some (dataValue :: _) =>
            let colorPalette := host.colorPalette
            let objects := dataView.metadata.objects
            some
              { dataPoints := buildBarChartDataPoints category dataValue colorPalette
                dataMax := dataValue.maxLocal
                settings := some (buildBarChartSettings objects colorPalette) }

/-! ## Gradient registration (`update`, lines 371-390) -/

/-- The gradient resource key, line 373:
`gradient_` + `color.substr(1)` + `_` + `endColor.substr(1)`. -/
def gradientId (color endColor : String) : String :=
  "gradient_" ++ color.drop 1 ++ "_" ++ endColor.drop 1

/-- One step of the gradient creation loop, lines 372-390: the state is the
list of gradient ids registered in the svg `defs`; a new resource is
appended only when no element with that id exists yet. -/
def ensureGradient (defs : List String) (color endColor : String) : List String :=
  let gid := gradientId color endColor
  if defs.contains gid then defs else defs ++ [gid]

/-! ## Selection synchronization -/

/-- `BarChart.Config.solidOpacity`. -/
def solidOpacity : ℚ := 1

/-- `BarChart.Config.transparentOpacity` (0.4). -/
def transparentOpacity : ℚ := 2 / 5

/-- `isSelectionIdInArray`, lines 492-500, with the host-owned
`ISelectionId.includes` identity-inclusion test passed in as a relation.
The `null`-argument guards of the source cannot fire in the total model. -/
def isSelectionIdInArray (includes : ISelectionId → ISelectionId → Bool)
    (selectionIds : List ISelectionId) (selectionId : ISelectionId) : Bool :=
  selectionIds.any fun currentSelectionId => includes currentSelectionId selectionId

/-- `syncSelectionState`, lines 459-490: the resulting per-point
`fill-opacity`/`stroke-opacity` override — `none` (style removed, resting
opacity applies) for every point when the authoritative set is empty,
otherwise `solidOpacity` for included points and `transparentOpacity` for
the rest. -/
def syncSelectionState (includes : ISelectionId → ISelectionId → Bool)
    (points : List BarChartDataPoint) (selectionIds : List ISelectionId) : List (Option ℚ) :=
  if selectionIds.length = 0 then
    points.map fun _ => none
  else
    points.map fun p =>
      some (if isSelectionIdInArray includes selectionIds p.selectionId then solidOpacity
            else transparentOpacity)

/-! ## Specification-side definitions used to compare against the code -/

/-- The channel formula exactly as claimed for `shadeColor(_, -40)`:
`clamp(round(channel * (100 - 40) / 100), 0, 255)` with half-up rounding,
re-encoded as two hex digits and reassembled. Used to refute the claimed
rounding. -/
def shadeColorRoundedSpec (color : String) : Option String :=
  (parseColor color).map fun (rgb : Nat × Nat × Nat) =>
    match rgb with
    | (r, g, b) =>
      let f : Nat → Nat := fun c => min ((c * 60 + 50) / 100) 255
      "#" ++ pad2 (natToHex (f r)) ++ pad2 (natToHex (f g)) ++ pad2 (natToHex (f b))

/-- The amended channel formula: `clamp(trunc(channel * (100 - 40) / 100),
0, 255)` — the integer part instead of rounding (the lower clamp is vacuous
on natural channels). -/
def shadeColorTruncSpec (color : String) : Option String :=
  (parseColor color).map fun (rgb : Nat × Nat × Nat) =>
    match rgb with
    | (r, g, b) =>
      let f : Nat → Nat := fun c => min ((c * 60) / 100) 255
      "#" ++ pad2 (natToHex (f r)) ++ pad2 (natToHex (f g)) ++ pad2 (natToHex (f b))

/-- The shapes of raw input on which the guard of `visualTransform` returns
the zero view model: data views absent or empty, categorical absent,
categories absent, first category without a `source`, or values absent.
(The present-but-empty categories/values arrays are excluded: on those the
code throws instead of returning.) -/
def insufficientDataShape (options : VisualUpdateOptions) : Bool :=
  match options.dataViews with
  | none => true
  | some [] => true
  | some (dataView :: _) =>
    match dataView.categorical with
    | none => true
    | some categorical =>
      match categorical.categories with
      | none => true
      | some [] => false
      | some (category :: _) =>
        match category.source with
        | none => true
        | some _ => categorical.values.isNone

/-! ## Concrete fixtures for witnesses and counterexamples -/

/-- A non-high-contrast palette fixture. -/
def testPalette : ISandboxExtendedColorPalette :=
  { isHighContrast := false
    getColor := fun _ => "#336699"
    background := "#ffffff"
    foreground := "#000000" }

/-- A high-contrast palette fixture. -/
def hcPalette : ISandboxExtendedColorPalette :=
  { isHighContrast := true
    getColor := fun _ => "#336699"
    background := "#fafafa"
    foreground := "#101010" }

/-- Host fixture over `testPalette`. -/
def testHost : IVisualHost := { colorPalette := testPalette }

/-- A category column fixture with three rows and no persisted overrides. -/
def testCategoryColumn : DataViewCategoryColumn :=
  { source := some "Category"
    values := [.str "A", .str "B", .str "C"]
    objects := fun _ => none }

/-- A value column fixture with two rows (shorter than the category column). -/
def testValueColumn : DataViewValueColumn :=
  { values := [.num 3, .num 7]
    maxLocal := some 10 }

/-- Update options carrying the category/value column fixtures. -/
def testOptions : VisualUpdateOptions :=
  { dataViews := some
      [{ categorical := some { categories := some [testCategoryColumn]
                               values := some [testValueColumn] }
         metadata := { objects := none } }] }

/-- Update options whose categories and values arrays are present but empty. -/
def emptyColumnsOptions : VisualUpdateOptions :=
  { dataViews := some
      [{ categorical := some { categories := some [], values := some [] }
         metadata := { objects := none } }] }

/-- Update options with the data views array entirely absent. -/
def absentOptions : VisualUpdateOptions := { dataViews := none }

/-! ## Helper lemmas about the color pipeline -/

theorem hexVal_lt {c : Char} {v : Nat} (h : hexVal c = some v) : v < 16 := by
  simp only [hexVal] at h
  repeat' split at h
  all_goals try exact Option.noConfusion h
  all_goals obtain rfl := Option.some.inj h
  all_goals omega

theorem hexVal_digitChar : ∀ n, n < 16 → hexVal (Nat.digitChar n) = some n := by decide

set_option maxRecDepth 8192 in
theorem pad2_natToHex_data :
    ∀ n, n < 256 → (pad2 (natToHex n)).data = [Nat.digitChar (n / 16), Nat.digitChar (n % 16)] := by
  decide

theorem string_append_data (a b : String) : (a ++ b).data = a.data ++ b.data := by
  cases a; cases b; rfl

theorem string_data_inj {a b : String} (h : a.data = b.data) : a = b := by
  cases a; cases b; exact congrArg String.mk h

/-- The reassembled channel string of `shadeColor` on in-range channels,
character by character. -/
theorem encode_data (r g b : Nat) (hr : r < 256) (hg : g < 256) (hb : b < 256) :
    ("#" ++ pad2 (natToHex r) ++ pad2 (natToHex g) ++ pad2 (natToHex b)).data =
      ['#', Nat.digitChar (r / 16), Nat.digitChar (r % 16), Nat.digitChar (g / 16),
        Nat.digitChar (g % 16), Nat.digitChar (b / 16), Nat.digitChar (b % 16)] := by
  simp only [string_append_data, pad2_natToHex_data r hr, pad2_natToHex_data g hg,
    pad2_natToHex_data b hb]
  rfl

theorem parseColor_of_valid {s : String} (h : isValidHexColor s = true) :
    ∃ r g b, parseColor s = some (r, g, b) ∧ r < 256 ∧ g < 256 ∧ b < 256 := by
  obtain ⟨data⟩ := s
  match data with
  | [] => simp [isValidHexColor] at h
  | c :: rest =>
    simp only [isValidHexColor, Bool.and_eq_true, beq_iff_eq, List.all_eq_true] at h
    obtain ⟨⟨hc, hlen⟩, hall⟩ := h
    subst hc
    match rest, hlen with
    | [c1, c2, c3, c4, c5, c6], _ =>
      have h1 := hall c1 (by simp)
      have h2 := hall c2 (by simp)
      have h3 := hall c3 (by simp)
      have h4 := hall c4 (by simp)
      have h5 := hall c5 (by simp)
      have h6 := hall c6 (by simp)
      rw [Option.isSome_iff_exists] at h1 h2 h3 h4 h5 h6
      obtain ⟨v1, hv1⟩ := h1
      obtain ⟨v2, hv2⟩ := h2
      obtain ⟨v3, hv3⟩ := h3
      obtain ⟨v4, hv4⟩ := h4
      obtain ⟨v5, hv5⟩ := h5
      obtain ⟨v6, hv6⟩ := h6
      refine ⟨16 * v1 + v2, 16 * v3 + v4, 16 * v5 + v6, ?_, ?_, ?_, ?_⟩
      · simp [parseColor, hv1, hv2, hv3, hv4, hv5, hv6]
      · have := hexVal_lt hv1; have := hexVal_lt hv2; omega
      · have := hexVal_lt hv3; have := hexVal_lt hv4; omega
      · have := hexVal_lt hv5; have := hexVal_lt hv6; omega

theorem intToHexJS_ofNat (k : Nat) : intToHexJS (k : Int) = natToHex k := by
  simp [intToHexJS, Int.toNat_natCast, not_lt.mpr (Int.natCast_nonneg k)]

theorem scaled_channel_le (c : Nat) (hc : c < 256) : c * 60 / 100 ≤ 153 := by
  calc c * 60 / 100 ≤ 255 * 60 / 100 := Nat.div_le_div_right (Nat.mul_le_mul_right _ (by omega))
  _ = 153 := by norm_num

/-- On a successfully parsed color, `shadeColor(_, -40)` is the channel-wise
truncated 60% scaling, re-encoded. -/
theorem shadeColor_neg40_eq {s : String} {r g b : Nat} (hps : parseColor s = some (r, g, b))
    (hr : r < 256) (hg : g < 256) (hb : b < 256) :
    shadeColor s (-40) =
      "#" ++ pad2 (natToHex (r * 60 / 100)) ++ pad2 (natToHex (g * 60 / 100)) ++
        pad2 (natToHex (b * 60 / 100)) := by
  have hstep : ∀ c : Nat, Int.tdiv ((c : Int) * (100 + (-40))) 100 = ((c * 60 / 100 : Nat) : Int) :=
    fun c => rfl
  have hlt : ∀ c : Nat, c < 256 → (((c * 60 / 100 : Nat) : Int) < 255) := by
    intro c hc
    exact_mod_cast Nat.lt_of_le_of_lt (scaled_channel_le c hc) (by norm_num)
  simp only [shadeColor, hps, hstep, if_pos (hlt r hr), if_pos (hlt g hg), if_pos (hlt b hb),
    intToHexJS_ofNat]

theorem parseColor_encode (r g b : Nat) (hr : r < 256) (hg : g < 256) (hb : b < 256) :
    parseColor ("#" ++ pad2 (natToHex r) ++ pad2 (natToHex g) ++ pad2 (natToHex b)) =
      some (r, g, b) := by
  have h16 : ∀ c : Nat, c < 256 → c / 16 < 16 := by omega
  have h16m : ∀ c : Nat, c % 16 < 16 := fun c => Nat.mod_lt _ (by omega)
  have hmk : ∀ c : Nat, 16 * (c / 16) + c % 16 = c := fun c => Nat.div_add_mod c 16
  simp only [parseColor, encode_data r g b hr hg hb,
    hexVal_digitChar _ (h16 r hr), hexVal_digitChar _ (h16 g hg), hexVal_digitChar _ (h16 b hb),
    hexVal_digitChar _ (h16m r), hexVal_digitChar _ (h16m g), hexVal_digitChar _ (h16m b),
    hmk]

theorem isValidHexColor_encode (r g b : Nat) (hr : r < 256) (hg : g < 256) (hb : b < 256) :
    isValidHexColor ("#" ++ pad2 (natToHex r) ++ pad2 (natToHex g) ++ pad2 (natToHex b)) = true := by
  have hsome : ∀ n, n < 16 → (hexVal (Nat.digitChar n)).isSome = true := by
    intro n hn; rw [hexVal_digitChar n hn]; rfl
  have h16 : ∀ c : Nat, c < 256 → c / 16 < 16 := by omega
  have h16m : ∀ c : Nat, c % 16 < 16 := fun c => Nat.mod_lt _ (by omega)
  simp only [isValidHexColor, encode_data r g b hr hg hb, List.all_cons, List.all_nil,
    List.length_cons, List.length_nil, hsome _ (h16 r hr), hsome _ (h16 g hg), hsome _ (h16 b hb),
    hsome _ (h16m r), hsome _ (h16m g), hsome _ (h16m b)]
  rfl

/-! ## Claim theorems: `shadeColor` (C3, C9) -/

/-- Claim C3 counterexample: on the valid input color `#030303`,
`shadeColor(color, -40)` returns `#010101` (each channel `3` scaled to
`1.8` and truncated by `parseInt` to `1`), whereas the claimed formula
`clamp(round(channel * (100 - 40) / 100), 0, 255)` rounds `1.8` to `2` and
produces `#020202`: the claim is false at this input. -/
theorem shadeColor_round_counterexample :
    isValidHexColor "#030303" = true ∧
      shadeColor "#030303" (-40) = "#010101" ∧
      shadeColorRoundedSpec "#030303" = some "#020202" ∧
      ("#010101" : String) ≠ "#020202" := by
  refine ⟨rfl, rfl, rfl, ?_⟩
  decide

/-- Claim C3, amended: for every valid `#RRGGBB` input color,
`shadeColor(color, -40)` computes each 8-bit channel as
`clamp(trunc(channel * (100 - 40) / 100), 0, 255)` — the integer part
(JS `parseInt` of the decimal rendering) rather than the rounded value —
re-encodes each result as exactly 2 (lowercase) hex digits, and returns them
reassembled as a `#RRGGBB` string. -/
theorem shadeColor_eq_truncSpec (color : String) (h : isValidHexColor color = true) :
    shadeColorTruncSpec color = some (shadeColor color (-40)) := by
  obtain ⟨r, g, b, hps, hr, hg, hb⟩ := parseColor_of_valid h
  have hmin : ∀ c : Nat, c < 256 → min (c * 60 / 100) 255 = c * 60 / 100 := by
    intro c hc
    exact min_eq_left (Nat.le_trans (scaled_channel_le c hc) (by omega))
  rw [shadeColor_neg40_eq hps hr hg hb]
  simp only [shadeColorTruncSpec, hps, Option.map_some', hmin r hr, hmin g hg, hmin b hb]

/-- Claim C3 amended, witness at the concrete color `#336699`. -/
theorem shadeColor_eq_truncSpec_witness :
    shadeColorTruncSpec "#336699" = some (shadeColor "#336699" (-40)) :=
  shadeColor_eq_truncSpec "#336699" (by decide)

/-- Claim C9: for every valid hex color `c`, `shadeColor(c, -40)` is
deterministic (equal inputs give equal outputs), every output channel is at
most the corresponding input channel (monotonic darkening), and the output
is a well-formed `#RRGGBB` string of exactly six hex digits. -/
theorem shadeColor_deterministic_monotone_wellformed (color : String)
    (h : isValidHexColor color = true) :
    (∀ color2, color2 = color → shadeColor color2 (-40) = shadeColor color (-40)) ∧
      (∃ r g b r2 g2 b2,
        parseColor color = some (r, g, b) ∧
          parseColor (shadeColor color (-40)) = some (r2, g2, b2) ∧
          r2 ≤ r ∧ g2 ≤ g ∧ b2 ≤ b) ∧
      isValidHexColor (shadeColor color (-40)) = true := by
  obtain ⟨r, g, b, hps, hr, hg, hb⟩ := parseColor_of_valid h
  have hle : ∀ c : Nat, c * 60 / 100 ≤ c := by
    intro c
    calc c * 60 / 100 ≤ c * 100 / 100 := Nat.div_le_div_right (Nat.mul_le_mul_left _ (by omega))
    _ = c := Nat.mul_div_cancel c (by omega)
  have hlt : ∀ c : Nat, c < 256 → c * 60 / 100 < 256 := fun c hc => by
    have := scaled_channel_le c hc; omega
  refine ⟨fun _ hc2 => by rw [hc2], ⟨r, g, b, r * 60 / 100, g * 60 / 100, b * 60 / 100,
    hps, ?_, hle r, hle g, hle b⟩, ?_⟩
  · rw [shadeColor_neg40_eq hps hr hg hb]
    exact parseColor_encode _ _ _ (hlt r hr) (hlt g hg) (hlt b hb)
  · rw [shadeColor_neg40_eq hps hr hg hb]
    exact isValidHexColor_encode _ _ _ (hlt r hr) (hlt g hg) (hlt b hb)

/-- Claim C9, witness at the concrete color `#ffffff` (darkened to
`#999999`). -/
theorem shadeColor_deterministic_monotone_wellformed_witness :
    (∀ color2, color2 = "#ffffff" → shadeColor color2 (-40) = shadeColor "#ffffff" (-40)) ∧
      (∃ r g b r2 g2 b2,
        parseColor "#ffffff" = some (r, g, b) ∧
          parseColor (shadeColor "#ffffff" (-40)) = some (r2, g2, b2) ∧
          r2 ≤ r ∧ g2 ≤ g ∧ b2 ≤ b) ∧
      isValidHexColor (shadeColor "#ffffff" (-40)) = true :=
  shadeColor_deterministic_monotone_wellformed "#ffffff" (by decide)

/-! ## Claim theorems: gradient registration (C6) -/

theorem valid_data_shape {s : String} (h : isValidHexColor s = true) :
    ∃ rest, s.data = '#' :: rest ∧ rest.length = 6 := by
  obtain ⟨data⟩ := s
  match data with
  | [] => simp [isValidHexColor] at h
  | c :: rest =>
    simp only [isValidHexColor, Bool.and_eq_true, beq_iff_eq] at h
    exact ⟨rest, by rw [h.1.1], h.1.2⟩

theorem gradientId_data (a b : String) :
    (gradientId a b).data = "gradient_".data ++ (a.data.drop 1 ++ ('_' :: b.data.drop 1)) := by
  have hdrop : ∀ s : String, (s.drop 1).data = s.data.drop 1 := by
    intro s; rw [String.drop_eq]
  simp only [gradientId, string_append_data, hdrop, List.append_assoc]
  rfl

theorem gradientId_ne {a b : String} (ha : isValidHexColor a = true)
    (hb : isValidHexColor b = true) (hab : a ≠ b) : gradientId a b ≠ gradientId b a := by
  obtain ⟨la, hla, hla6⟩ := valid_data_shape ha
  obtain ⟨lb, hlb, hlb6⟩ := valid_data_shape hb
  intro heq
  have hdata := congrArg String.data heq
  rw [gradientId_data, gradientId_data, hla, hlb] at hdata
  simp only [List.drop_succ_cons, List.drop_zero, List.append_cancel_left_eq] at hdata
  have := (List.append_inj hdata (hla6.trans hlb6.symm)).1
  exact hab (string_data_inj (by rw [hla, hlb, this]))

/-- Claim C6: the gradient cache is idempotent and order-sensitive — for any
state of the svg `defs` and any pair of valid colors, ensuring the same
`(a, b)` gradient twice leaves the single registration of the first call (no
duplicate resource), while ensuring `(a, b)` and then `(b, a)` for `a ≠ b`
creates two distinct registrations. -/
theorem ensureGradient_idempotent_order_sensitive (defs : List String) (a b : String)
    (ha : isValidHexColor a = true) (hb : isValidHexColor b = true) (hab : a ≠ b) :
    ensureGradient (ensureGradient defs a b) a b = ensureGradient defs a b ∧
      gradientId a b ≠ gradientId b a ∧
      ensureGradient (ensureGradient [] a b) b a = [gradientId a b, gradientId b a] := by
  have hunfold : ∀ (ds : List String) (c e : String),
      ensureGradient ds c e = if ds.contains (gradientId c e) then ds else ds ++ [gradientId c e] :=
    fun _ _ _ => rfl
  refine ⟨?_, gradientId_ne ha hb hab, ?_⟩
  · by_cases h : defs.contains (gradientId a b) = true
    · have h1 : ensureGradient defs a b = defs := by rw [hunfold, if_pos h]
      rw [h1]
      exact h1
    · have h1 : ensureGradient defs a b = defs ++ [gradientId a b] := by rw [hunfold, if_neg h]
      have hc : (defs ++ [gradientId a b]).contains (gradientId a b) = true := by simp
      rw [h1, hunfold, if_pos hc]
  · have h1 : ensureGradient [] a b = [gradientId a b] := rfl
    rw [h1]
    have h2 : ¬ (([gradientId a b] : List String).contains (gradientId b a) = true) := by
      simp only [List.contains_cons, List.contains_nil, Bool.or_false, beq_iff_eq]
      exact fun hh => gradientId_ne ha hb hab hh.symm
    rw [hunfold, if_neg h2]
    rfl

/-- Claim C6, witness at the concrete color pair `#336699` / `#123456`. -/
theorem ensureGradient_idempotent_order_sensitive_witness :
    ensureGradient (ensureGradient [] "#336699" "#123456") "#336699" "#123456" =
        ensureGradient [] "#336699" "#123456" ∧
      gradientId "#336699" "#123456" ≠ gradientId "#123456" "#336699" ∧
      ensureGradient (ensureGradient [] "#336699" "#123456") "#123456" "#336699" =
        [gradientId "#336699" "#123456", gradientId "#123456" "#336699"] :=
  ensureGradient_idempotent_order_sensitive [] "#336699" "#123456" (by decide) (by decide)
    (by decide)

/-! ## Claim theorems: selection synchronization (C4) -/

/-- Claim C4: given rendered points and the authoritative selected-id set,
if the set is empty every point's fill/stroke-opacity override is cleared
(`none`, falling back to the resting opacity); otherwise every point whose
`selectionId` is included in some member of the set (identity-inclusion via
`includes`) gets opacity exactly 1.0 (`solidOpacity`) and every other point
exactly 0.4 (`transparentOpacity`). -/
theorem syncSelectionState_spec (includes : ISelectionId → ISelectionId → Bool)
    (points : List BarChartDataPoint) (selectionIds : List ISelectionId) (i : Nat)
    (hi : i < points.length) :
    (syncSelectionState includes points selectionIds).length = points.length ∧
      (selectionIds = [] →
        (syncSelectionState includes points selectionIds)[i]? = some none) ∧
      (selectionIds ≠ [] →
        isSelectionIdInArray includes selectionIds points[i].selectionId = true →
        (syncSelectionState includes points selectionIds)[i]? = some (some solidOpacity)) ∧
      (selectionIds ≠ [] →
        isSelectionIdInArray includes selectionIds points[i].selectionId = false →
        (syncSelectionState includes points selectionIds)[i]? = some (some transparentOpacity)) := by
  cases selectionIds with
  | nil =>
    refine ⟨by simp [syncSelectionState], ?_, fun h => absurd rfl h, fun h => absurd rfl h⟩
    intro _
    have h1 : syncSelectionState includes points [] =
        points.map fun _ => (none : Option ℚ) := rfl
    rw [h1, List.getElem?_map, List.getElem?_eq_getElem hi, Option.map_some']
  | cons x xs =>
    refine ⟨by simp [syncSelectionState], by simp, ?_, ?_⟩
    · intro _ hmem
      simp [syncSelectionState, List.getElem?_eq_getElem hi, hmem]
    · intro _ hmem
      simp [syncSelectionState, List.getElem?_eq_getElem hi, hmem]

/-- The host's `ISelectionId.includes` instantiated to plain identity, for
the witness. -/
def testIncludes : ISelectionId → ISelectionId → Bool := fun a b => a == b

/-- Two rendered-point fixtures with distinct selection ids. -/
def testPoints : List BarChartDataPoint :=
  [{ value := some (.num 3), category := "A", color := "#336699", endColor := "#1e3d5b",
     strokeColor := none, strokeWidth := 0, selectionId := ⟨0⟩ },
   { value := some (.num 7), category := "B", color := "#aabbcc", endColor := "#667a99",
     strokeColor := none, strokeWidth := 0, selectionId := ⟨1⟩ }]

/-- Claim C4, witness: with the set `{id 0}` the first fixture point gets
opacity 1.0 and the second 0.4; with the empty set the override is cleared. -/
theorem syncSelectionState_spec_witness :
    (syncSelectionState testIncludes testPoints [⟨0⟩])[0]? = some (some solidOpacity) ∧
      (syncSelectionState testIncludes testPoints [⟨0⟩])[1]? = some (some transparentOpacity) ∧
      (syncSelectionState testIncludes testPoints [])[0]? = some none :=
  ⟨(syncSelectionState_spec testIncludes testPoints [⟨0⟩] 0 (by decide)).2.2.1 (by decide)
      (by decide),
    (syncSelectionState_spec testIncludes testPoints [⟨0⟩] 1 (by decide)).2.2.2 (by decide)
      (by decide),
    (syncSelectionState_spec testIncludes testPoints [] 0 (by decide)).2.1 rfl⟩

/-! ## Claim theorems: high-contrast mode (C7) -/

/-- Claim C7: in high-contrast mode, for every palette, category and index,
`getColumnColorByIndex` returns the theme's fixed background color for both
the fill color (`isEndColor = false`) and the end color
(`isEndColor = true`), the resolved stroke width is exactly 2, and the
stroke color is the theme foreground. -/
theorem highContrast_colors (category : DataViewCategoryColumn) (index : Nat)
    (colorPalette : ISandboxExtendedColorPalette) (h : colorPalette.isHighContrast = true) :
    getColumnColorByIndex category index colorPalette false = colorPalette.background ∧
      getColumnColorByIndex category index colorPalette true = colorPalette.background ∧
      getColumnStrokeWidth colorPalette.isHighContrast = 2 ∧
      getColumnStrokeColor colorPalette = some colorPalette.foreground := by
  simp [getColumnColorByIndex, getColumnStrokeWidth, getColumnStrokeColor, h]

/-- Claim C7, witness at the high-contrast palette fixture. -/
theorem highContrast_colors_witness :
    getColumnColorByIndex testCategoryColumn 0 hcPalette false = hcPalette.background ∧
      getColumnColorByIndex testCategoryColumn 0 hcPalette true = hcPalette.background ∧
      getColumnStrokeWidth hcPalette.isHighContrast = 2 ∧
      getColumnStrokeColor hcPalette = some hcPalette.foreground :=
  highContrast_colors testCategoryColumn 0 hcPalette rfl

/-! ## Claim theorems: the view-model transform (C1, C2, C5, C8, C10) -/

/-- Claim C1 counterexample: on the absent raw result, `visualTransform`
does return empty data points and `dataMax = 0`, but its `settings` field is
the bare type-cast `<BarChartSettings>{}` — an object with no properties set
(`none` in the model) — not the populated default settings. -/
theorem visualTransform_zero_settings_counterexample :
    ∃ vm, visualTransform absentOptions testHost = some vm ∧ vm.dataPoints = [] ∧
      vm.dataMax = some 0 ∧ vm.settings ≠ some defaultSettings :=
  ⟨{ dataPoints := [], dataMax := some 0, settings := none }, rfl, rfl, rfl, by decide⟩

/-- Claim C1, amended: for every raw query result that is absent (or has an
empty data-views array), lacks a categorical, lacks a categories array, has
a first category without a source, or lacks a values array, the transform
returns the zero view model: `dataPoints = []`, `dataMax = 0`, and
`settings` left as the empty type-cast object (no properties set), not the
default settings. -/
theorem visualTransform_insufficient_zero (options : VisualUpdateOptions) (host : IVisualHost)
    (h : insufficientDataShape options = true) :
    visualTransform options host =
      some { dataPoints := [], dataMax := some 0, settings := none } := by
  obtain ⟨dvs⟩ := options
  match dvs with
  | none => rfl
  | some [] => rfl
  | some (⟨none, _⟩ :: rest) => rfl
  | some (⟨some ⟨none, _⟩, _⟩ :: rest) => rfl
  | some (⟨some ⟨some [], _⟩, _⟩ :: rest) => simp [insufficientDataShape] at h
  | some (⟨some ⟨some (⟨none, cvals, objs⟩ :: cs), _⟩, _⟩ :: rest) => rfl
  | some (⟨some ⟨some (⟨some src, cvals, objs⟩ :: cs), none⟩, _⟩ :: rest) => rfl
  | some (⟨some ⟨some (⟨some src, cvals, objs⟩ :: cs), some vals⟩, _⟩ :: rest) =>
    simp [insufficientDataShape] at h

/-- Claim C1 amended, witness at the absent raw result. -/
theorem visualTransform_insufficient_zero_witness :
    visualTransform absentOptions testHost =
      some { dataPoints := [], dataMax := some 0, settings := none } :=
  visualTransform_insufficient_zero absentOptions testHost rfl

/-- Claim C2 counterexample: on a raw result whose categories and values
arrays are present but empty, `visualTransform` does not return a view
model: reading `categories[0].source` raises a `TypeError` (the `none`
result of the embedding). -/
theorem visualTransform_throws_on_empty_columns :
    visualTransform emptyColumnsOptions testHost = none := rfl

/-- Claim C2, amended: the transform returns a view model (never throws) for
every raw query result except exactly those whose first data view has a
categorical with a present-but-empty categories array, or a
present-but-empty values array together with a first category that has a
source — on those it throws a `TypeError`. -/
theorem visualTransform_none_iff (options : VisualUpdateOptions) (host : IVisualHost) :
    visualTransform options host = none ↔
      ∃ dataView rest categorical, options.dataViews = some (dataView :: rest) ∧
        dataView.categorical = some categorical ∧
        (categorical.categories = some [] ∨
          ∃ category cs, categorical.categories = some (category :: cs) ∧
            category.source.isSome = true ∧ categorical.values = some []) := by
  obtain ⟨dvs⟩ := options
  match dvs with
  | none => simp [visualTransform]
  | some [] => simp [visualTransform]
  | some (⟨none, m⟩ :: rest) => simp [visualTransform]
  | some (⟨some ⟨none, vals⟩, m⟩ :: rest) => simp [visualTransform]
  | some (⟨some ⟨some [], vals⟩, m⟩ :: rest) =>
    exact iff_of_true rfl ⟨_, rest, _, rfl, rfl, Or.inl rfl⟩
  | some (⟨some ⟨some (⟨none, cvals, objs⟩ :: cs), vals⟩, m⟩ :: rest) =>
    simp [visualTransform]
  | some (⟨some ⟨some (⟨some src, cvals, objs⟩ :: cs), none⟩, m⟩ :: rest) =>
    simp [visualTransform]
  | some (⟨some ⟨some (⟨some src, cvals, objs⟩ :: cs), some []⟩, m⟩ :: rest) =>
    exact iff_of_true rfl ⟨_, rest, _, rfl, rfl, Or.inr ⟨_, cs, rfl, rfl, rfl⟩⟩
  | some (⟨some ⟨some (⟨some src, cvals, objs⟩ :: cs), some (v :: vs)⟩, m⟩ :: rest) =>
    simp [visualTransform]

/-- Claim C5: for every pair of category and value columns of lengths `m`
and `n` (in an otherwise well-formed raw result), the transform produces
exactly `max(m, n)` data points, and every point at an index at or beyond
the value column's length carries `value = none` (JS `undefined`) rather
than failing. -/
theorem visualTransform_point_count (category : DataViewCategoryColumn)
    (hsrc : category.source.isSome = true) (dataValue : DataViewValueColumn)
    (cs : List DataViewCategoryColumn) (vs : List DataViewValueColumn)
    (metadata : DataViewMetadata) (rest : List DataView) (host : IVisualHost) :
    ∃ vm,
      visualTransform
        ⟨some (⟨some ⟨some (category :: cs), some (dataValue :: vs)⟩, metadata⟩ :: rest)⟩
        host = some vm ∧
      vm.dataPoints.length = max category.values.length dataValue.values.length ∧
      ∀ i (hi : i < vm.dataPoints.length), dataValue.values.length ≤ i →
        vm.dataPoints[i].value = none := by
  obtain ⟨src, cvals, objs⟩ := category
  cases src with
  | none => exact absurd hsrc (by simp)
  | some s =>
    refine ⟨_, rfl, ?_, ?_⟩
    · simp [buildBarChartDataPoints]
    · intro i hi hlen
      simp only [buildBarChartDataPoints, List.getElem_map,
        List.getElem_range] at hi ⊢
      exact List.get?_eq_none.mpr hlen

/-- Claim C5, witness: three category rows against two value rows yield
three points, the third with an absent value. -/
theorem visualTransform_point_count_witness :
    ∃ vm,
      visualTransform
        ⟨some (⟨some ⟨some (testCategoryColumn :: []), some (testValueColumn :: [])⟩,
          ⟨none⟩⟩ :: [])⟩ testHost = some vm ∧
      vm.dataPoints.length = max testCategoryColumn.values.length testValueColumn.values.length ∧
      ∀ i (hi : i < vm.dataPoints.length), testValueColumn.values.length ≤ i →
        vm.dataPoints[i].value = none :=
  visualTransform_point_count testCategoryColumn rfl testValueColumn [] [] ⟨none⟩ [] testHost

/-- Helper: with no persisted objects and high contrast off, the settings
construction yields the defaults except for `helpLinkColor`, which is the
(null) stroke color. -/
theorem buildBarChartSettings_no_objects (colorPalette : ISandboxExtendedColorPalette)
    (h : colorPalette.isHighContrast = false) :
    buildBarChartSettings none colorPalette =
      { enableAxis := { «show» := false, fill := "#000000" }
        generalView := { opacity := 100, showHelpLink := false, helpLinkColor := none } } := by
  simp [buildBarChartSettings, getValueBool, getValueNum, getValueFill, getAxisTextFillColor,
    getColumnStrokeColor, defaultSettings, h]

/-- Claim C8 counterexample: with no persisted object properties and high
contrast off, the resolved settings do match the defaults on axis
visibility, axis fill, opacity and help-link visibility, but
`helpLinkColor` is `null` (the stroke color), not the fixed blue
`#80B0E0` of `defaultSettings`: the resolved settings are not the default
settings. -/
theorem visualTransform_settings_counterexample :
    ∃ vm, visualTransform testOptions testHost = some vm ∧
      vm.settings ≠ some defaultSettings ∧
      vm.settings = some { enableAxis := { «show» := false, fill := "#000000" }
                           generalView := { opacity := 100, showHelpLink := false,
                                            helpLinkColor := none } } :=
  ⟨_, rfl, by decide, rfl⟩

/-- Claim C8, amended: when no persisted object properties are present and
high-contrast mode is off, the settings resolved by the transform equal the
defaults on axis visibility (hidden), axis fill (black), opacity (100) and
help-link visibility (hidden), while the help-link color is the column
stroke color — `null` outside high-contrast mode — rather than the unused
fixed blue default. -/
theorem visualTransform_settings_resolved (category : DataViewCategoryColumn)
    (hsrc : category.source.isSome = true) (dataValue : DataViewValueColumn)
    (cs : List DataViewCategoryColumn) (vs : List DataViewValueColumn)
    (rest : List DataView) (host : IVisualHost)
    (hhc : host.colorPalette.isHighContrast = false) :
    ∃ vm,
      visualTransform
        ⟨some (⟨some ⟨some (category :: cs), some (dataValue :: vs)⟩, ⟨none⟩⟩ :: rest)⟩
        host = some vm ∧
      vm.settings = some { enableAxis := { «show» := false, fill := "#000000" }
                           generalView := { opacity := 100, showHelpLink := false,
                                            helpLinkColor := none } } := by
  obtain ⟨src, cvals, objs⟩ := category
  cases src with
  | none => exact absurd hsrc (by simp)
  | some s =>
    refine ⟨_, rfl, ?_⟩
    show some (buildBarChartSettings none host.colorPalette) = _
    rw [buildBarChartSettings_no_objects host.colorPalette hhc]

/-- Claim C8 amended, witness at the concrete fixtures. -/
theorem visualTransform_settings_resolved_witness :
    ∃ vm,
      visualTransform
        ⟨some (⟨some ⟨some (testCategoryColumn :: []), some (testValueColumn :: [])⟩,
          ⟨none⟩⟩ :: [])⟩ testHost = some vm ∧
      vm.settings = some { enableAxis := { «show» := false, fill := "#000000" }
                           generalView := { opacity := 100, showHelpLink := false,
                                            helpLinkColor := none } } :=
  visualTransform_settings_resolved testCategoryColumn rfl testValueColumn [] [] [] testHost rfl

/-- Claim C10: every produced data point's `category` field is the JS
template coercion of the raw category cell; in particular, when the value
column is longer than the category column, every point at an index at or
beyond the category column's length gets the literal string `"undefined"`
as its category, and (outside high-contrast mode, with no persisted
override for that row) that same string is the key used for the palette
color lookup of its fill and end colors. -/
theorem visualTransform_undefined_category (category : DataViewCategoryColumn)
    (hsrc : category.source.isSome = true) (dataValue : DataViewValueColumn)
    (cs : List DataViewCategoryColumn) (vs : List DataViewValueColumn)
    (metadata : DataViewMetadata) (rest : List DataView) (host : IVisualHost)
    (hhc : host.colorPalette.isHighContrast = false) (i : Nat)
    (hi : i < max category.values.length dataValue.values.length)
    (hbeyond : category.values.length ≤ i) (hov : category.objects i = none) :
    ∃ vm,
      visualTransform
        ⟨some (⟨some ⟨some (category :: cs), some (dataValue :: vs)⟩, metadata⟩ :: rest)⟩
        host = some vm ∧
      (∀ j (hj : j < vm.dataPoints.length),
        vm.dataPoints[j].category = jsTemplate (category.values.get? j)) ∧
      ∃ hi2 : i < vm.dataPoints.length,
        vm.dataPoints[i].category = "undefined" ∧
        vm.dataPoints[i].color = host.colorPalette.getColor "undefined" ∧
        vm.dataPoints[i].endColor =
          shadeColor (host.colorPalette.getColor "undefined") (-40) := by
  obtain ⟨src, cvals, objs⟩ := category
  cases src with
  | none => exact absurd hsrc (by simp)
  | some s =>
    have hnone : cvals.get? i = none := List.get?_eq_none.mpr hbeyond
    refine ⟨_, rfl, ?_, ?_⟩
    · intro j hj
      simp only [buildBarChartDataPoints, List.getElem_map, List.getElem_range]
    · have hov2 : objs i = none := hov
      refine ⟨by simpa [buildBarChartDataPoints] using hi, ?_, ?_, ?_⟩
      · simp only [buildBarChartDataPoints, List.getElem_map, List.getElem_range, hnone]
        rfl
      · simp only [buildBarChartDataPoints, List.getElem_map, List.getElem_range,
          getColumnColorByIndex, hhc, Bool.false_eq_true, if_false, if_true,
          getCategoricalObjectValueFill, hov2, hnone]
        rfl
      · simp only [buildBarChartDataPoints, List.getElem_map, List.getElem_range,
          getColumnColorByIndex, hhc, Bool.false_eq_true, if_false, if_true,
          getCategoricalObjectValueFill, hov2, hnone]
        rfl

/-- A one-row category column fixture, shorter than `testValueColumn`. -/
def shortCategoryColumn : DataViewCategoryColumn :=
  { source := some "Category"
    values := [.str "A"]
    objects := fun _ => none }

/-- Claim C10, witness: one category row against two value rows; the second
point's category is `"undefined"` and its colors are looked up under that
key. -/
theorem visualTransform_undefined_category_witness :
    ∃ vm,
      visualTransform
        ⟨some (⟨some ⟨some (shortCategoryColumn :: []), some (testValueColumn :: [])⟩,
          ⟨none⟩⟩ :: [])⟩ testHost = some vm ∧
      (∀ j (hj : j < vm.dataPoints.length),
        vm.dataPoints[j].category = jsTemplate (shortCategoryColumn.values.get? j)) ∧
      ∃ hi2 : 1 < vm.dataPoints.length,
        vm.dataPoints[1].category = "undefined" ∧
        vm.dataPoints[1].color = testHost.colorPalette.getColor "undefined" ∧
        vm.dataPoints[1].endColor =
          shadeColor (testHost.colorPalette.getColor "undefined") (-40) :=
  visualTransform_undefined_category shortCategoryColumn rfl testValueColumn [] [] ⟨none⟩ []
    testHost rfl 1 (by decide) (by decide) rfl

end BarChartSpec
